import Mathlib

/-!
Shallow embedding of the task dependency machinery of `src/sys/tasking.hpp`
(namespace `pf`): the `Task` class (constructor, `starts`, `ends`,
`setPriority`, `setAffinity`, `getPriority`, `getAffinity`), the `TaskSet`
class, and the `TaskPriority` / `TaskState` enumerations.

Pointers (`Task *`, `Ref<Task>`) are embedded as optional task identifiers
(`Option Nat`); a member function that mutates both `this` and the task
behind its argument pointer is embedded as a pure function from the two
task records to the updated pair.  Debug assertions (`assert(...)`) are
embedded as `Except Unit`: `.error ()` means the assertion fired.
-/

namespace pf

/-- Embeds the `TaskPriority` enumeration: `CRITICAL = 0u`. -/
def TaskPriority.CRITICAL : Nat := 0

/-- Embeds the `TaskPriority` enumeration: `HIGH = 1u`. -/
def TaskPriority.HIGH : Nat := 1

/-- Embeds the `TaskPriority` enumeration: `NORMAL = 2u`. -/
def TaskPriority.NORMAL : Nat := 2

/-- Embeds the `TaskPriority` enumeration: `LOW = 3u`. -/
def TaskPriority.LOW : Nat := 3

/-- Embeds the `TaskPriority` enumeration: `NUM = 4u`. -/
def TaskPriority.NUM : Nat := 4

/-- Embeds the `TaskPriority` enumeration: `INVALID = 0xffffu`. -/
def TaskPriority.INVALID : Nat := 0xffff

/-- Embeds the debug-mode `TaskState` enumeration: `NEW = 0u`. -/
def TaskState.NEW : Nat := 0

/-- Embeds the debug-mode `TaskState` enumeration: `READY = 1u`. -/
def TaskState.READY : Nat := 1

/-- Embeds the debug-mode `TaskState` enumeration: `RUNNING = 2u`. -/
def TaskState.RUNNING : Nat := 2

/-- Embeds the debug-mode `TaskState` enumeration: `DONE = 3u`. -/
def TaskState.DONE : Nat := 3

/-- Embeds the debug-mode `TaskState` enumeration: `NUM = 4u`. -/
def TaskState.NUM : Nat := 4

/-- Embeds the debug-mode `TaskState` enumeration: `INVALID = 0xffffu`. -/
def TaskState.INVALID : Nat := 0xffff

/-- The affinity literal `0xffffu` used by the `Task` constructor; the spec
names this value `ANY` (run on any worker). -/
def affinityANY : Nat := 0xffff

/-- Modelled from the spec: the `RefCount` base class comes from
`sys/ref.hpp`, which is not among the sources.  The spec describes it as
an internal reference count; a freshly constructed `RefCount` holds no
reference, so its counter starts at 0, and `refInc` adds one. -/
def RefCount.init : Nat := 0

/-- Embeds the fields of `class Task : public RefCount` (debug build, so the
`state` field is present).  `Ref<Task>` members (`toBeEnded`, `toBeStarted`)
are embedded as `Option Nat` task identifiers (`none` is the null
reference, modelled from the spec since `sys/ref.hpp` is not among the
sources: an optional owned reference); the `Atomic32` counters (`toStart`,
`toEnd`) are modelled from the spec as non-negative integer counters since
`sys/atomic.hpp` is not among the sources; `const char *name` is an
optional string; `uint16` fields are naturals below 2^16 by convention of
use. -/
structure Task where
  toBeEnded : Option Nat
  toBeStarted : Option Nat
  name : Option String
  toStart : Nat
  toEnd : Nat
  priority : Nat
  affinity : Nat
  state : Nat
  refCount : Nat
deriving DecidableEq, Repr

/-- Embeds the constructor `Task(const char *taskName = NULL)`: member
initializers set `name`, `toStart(1)`, `toEnd(1)`,
`priority(TaskPriority::NORMAL)`, `affinity(0xffffu)`, `state(NEW)`;
`Ref<Task>` members default-construct to null; the body calls
`this->refInc()` (the reference the scheduler will remove once the task is
done). -/
def Task.new (taskName : Option String) : Task :=
  { toBeEnded := none
    toBeStarted := none
    name := taskName
    toStart := 1
    toEnd := 1
    priority := TaskPriority.NORMAL
    affinity := 0xffff
    state := TaskState.NEW
    refCount := RefCount.init + 1 }

/-- Embeds `Task::starts(Task *other)`.  `otherId` is the argument pointer
(`none` is `NULL`); `other` is the task record behind it when non-null.
Mirrors the source line by line: return at once on `NULL`; assert
`other->state == TaskState::NEW`; return if `this->toBeStarted` is already
set ("already a task to start"); otherwise `other->toStart++` and
`this->toBeStarted = other`.  The result pairs the updated `self` with the
updated `other`; `.error ()` is a failed assertion. -/
def Task.starts (self : Task) (otherId : Option Nat) (other : Task) :
    Except Unit (Task × Task) :=
  match otherId with
  | none => .ok (self, other)
  | some oid =>
    if other.state = TaskState.NEW then
      if self.toBeStarted.isSome then .ok (self, other)
      else .ok ({ self with toBeStarted := some oid },
                { other with toStart := other.toStart + 1 })
    else .error ()

/-- Embeds `Task::ends(Task *other)`.  Mirrors the source: return at once on
`NULL`; assert `other->state == TaskState::NEW || other->state ==
TaskState::RUNNING`; return if `this->toBeEnded` is already set ("already a
task to end"); otherwise `other->toEnd++` and `this->toBeEnded = other`. -/
def Task.ends (self : Task) (otherId : Option Nat) (other : Task) :
    Except Unit (Task × Task) :=
  match otherId with
  | none => .ok (self, other)
  | some oid =>
    if other.state = TaskState.NEW ∨ other.state = TaskState.RUNNING then
      if self.toBeEnded.isSome then .ok (self, other)
      else .ok ({ self with toBeEnded := some oid },
                { other with toEnd := other.toEnd + 1 })
    else .error ()

/-- Embeds `Task::setPriority(uint16 prio)`: assert `this->state ==
TaskState::NEW`, then `this->priority = prio`. -/
def Task.setPriority (self : Task) (prio : Nat) : Except Unit Task :=
  if self.state = TaskState.NEW then .ok { self with priority := prio }
  else .error ()

/-- Embeds `Task::setAffinity(uint16 affi)`: assert `this->state ==
TaskState::NEW`, then `this->affinity = affi`. -/
def Task.setAffinity (self : Task) (affi : Nat) : Except Unit Task :=
  if self.state = TaskState.NEW then .ok { self with affinity := affi }
  else .error ()

/-- Embeds `Task::getPriority()`. -/
def Task.getPriority (self : Task) : Nat := self.priority

/-- Embeds `Task::getAffinity()`. -/
def Task.getAffinity (self : Task) : Nat := self.affinity

/-- Embeds `class TaskSet : public Task`: the `Task` base subobject plus the
`Atomic elemNum` member (modelled from the spec as a non-negative integer
counter since `sys/atomic.hpp` is not among the sources; the spec names it
`remaining`). -/
structure TaskSet where
  toTask : Task
  elemNum : Nat
deriving DecidableEq, Repr

/-- Embeds the constructor `TaskSet(size_t elemNum, const char *name = NULL)
: Task(name), elemNum(elemNum) {}`. -/
def TaskSet.new (elemNum : Nat) (taskName : Option String) : TaskSet :=
  { toTask := Task.new taskName
    elemNum := elemNum }

/-- C1: for every task self with self.on_start (toBeStarted) unset and every
non-null task other in state NEW, self.starts(other) increments
other.toStart by exactly 1 and stores other in self.toBeStarted, changing
nothing else. -/
theorem starts_increments_and_stores (self other : Task) (oid : Nat)
    (hunset : self.toBeStarted = none) (hnew : other.state = TaskState.NEW) :
    self.starts (some oid) other =
      .ok ({ self with toBeStarted := some oid },
           { other with toStart := other.toStart + 1 }) := by
  simp [Task.starts, hnew, hunset]

/-- Witness for C1 at a concrete input. -/
theorem starts_increments_and_stores_witness :
    (Task.new none).starts (some 7) (Task.new (some "b")) =
      .ok ({ Task.new none with toBeStarted := some 7 },
           { Task.new (some "b") with toStart := 2 }) :=
  starts_increments_and_stores (Task.new none) (Task.new (some "b")) 7
    (by rfl) (by rfl)

/-- C2: for every task self with self.on_end (toBeEnded) unset and every
non-null task other in state NEW or RUNNING, self.ends(other) increments
other.toEnd by exactly 1 and stores other in self.toBeEnded, changing
nothing else. -/
theorem ends_increments_and_stores (self other : Task) (oid : Nat)
    (hunset : self.toBeEnded = none)
    (hst : other.state = TaskState.NEW ∨ other.state = TaskState.RUNNING) :
    self.ends (some oid) other =
      .ok ({ self with toBeEnded := some oid },
           { other with toEnd := other.toEnd + 1 }) := by
  simp [Task.ends, hst, hunset]

/-- Witness for C2 at a concrete input, with other RUNNING. -/
theorem ends_increments_and_stores_witness :
    (Task.new none).ends (some 3)
        { Task.new none with state := TaskState.RUNNING } =
      .ok ({ Task.new none with toBeEnded := some 3 },
           { Task.new none with state := TaskState.RUNNING, toEnd := 2 }) :=
  ends_increments_and_stores (Task.new none)
    { Task.new none with state := TaskState.RUNNING } 3
    (by rfl) (Or.inr (by rfl))

/-- C3: at most one outgoing edge of each kind.  Once self.toBeStarted is
set, a subsequent starts call whose assertion passes is a no-op leaving
both tasks unchanged, and symmetrically for ends/toBeEnded; consequently
starts(b) followed by starts(c) leaves the caller exactly as starts(b)
alone did. -/
theorem at_most_one_outgoing_edge (self other : Task) (oid : Option Nat) :
    (self.toBeStarted.isSome → other.state = TaskState.NEW →
      self.starts oid other = .ok (self, other)) ∧
    (self.toBeEnded.isSome →
      (other.state = TaskState.NEW ∨ other.state = TaskState.RUNNING) →
      self.ends oid other = .ok (self, other)) ∧
    (∀ bid cid : Nat, ∀ b c sb ob : Task,
      c.state = TaskState.NEW →
      self.starts (some bid) b = .ok (sb, ob) →
      sb.starts (some cid) c = .ok (sb, c)) := by
  refine ⟨?_, ?_, ?_⟩
  · intro hsome hnew
    cases oid with
    | none => rfl
    | some o => simp [Task.starts, hnew, hsome]
  · intro hsome hst
    cases oid with
    | none => rfl
    | some o => simp [Task.ends, hst, hsome]
  · intro bid cid b c sb ob hcnew hcall
    have hsb : sb.toBeStarted.isSome := by
      by_cases hbnew : b.state = TaskState.NEW
      · by_cases hset : self.toBeStarted.isSome
        · simp [Task.starts, hbnew, hset] at hcall
          simp [← hcall.1, hset]
        · simp [Task.starts, hbnew, hset] at hcall
          simp [← hcall.1]
      · simp [Task.starts, hbnew] at hcall
    simp [Task.starts, hcnew, hsb]

/-- Witness for C3 at concrete inputs: a task whose toBeStarted and
toBeEnded are already set is left unchanged by starts and ends, and a
second starts after a first one changes nothing. -/
theorem at_most_one_outgoing_edge_witness :
    ({ Task.new none with toBeStarted := some 1, toBeEnded := some 2
         } : Task).starts (some 9) (Task.new none) =
        .ok ({ Task.new none with toBeStarted := some 1, toBeEnded := some 2 },
             Task.new none) ∧
    ({ Task.new none with toBeStarted := some 1, toBeEnded := some 2
         } : Task).ends (some 9) (Task.new none) =
        .ok ({ Task.new none with toBeStarted := some 1, toBeEnded := some 2 },
             Task.new none) ∧
    ({ Task.new none with toBeStarted := some 1 } : Task).starts (some 9)
        (Task.new none) =
      .ok ({ Task.new none with toBeStarted := some 1 }, Task.new none) := by
  refine ⟨?_, ?_, ?_⟩
  · exact (at_most_one_outgoing_edge
      { Task.new none with toBeStarted := some 1, toBeEnded := some 2 }
      (Task.new none) (some 9)).1 (by rfl) (by rfl)
  · exact (at_most_one_outgoing_edge
      { Task.new none with toBeStarted := some 1, toBeEnded := some 2 }
      (Task.new none) (some 9)).2.1 (by rfl) (Or.inl (by rfl))
  · exact (at_most_one_outgoing_edge (Task.new none) (Task.new none)
      (some 9)).2.2 1 9 (Task.new none) (Task.new none)
      { Task.new none with toBeStarted := some 1 }
      { Task.new none with toStart := 2 } (by rfl) (by rfl)

/-- C4 counterexample: the claim says calling starts while the caller self
is not in state NEW fails a debug assertion.  It does not: a caller in
state RUNNING with a NEW argument succeeds, because the assertion inspects
the state of the argument other, never of self. -/
theorem starts_caller_state_unchecked_cex :
    ({ Task.new none with state := TaskState.RUNNING } : Task).starts
        (some 1) (Task.new none) =
      .ok ({ Task.new none with
               state := TaskState.RUNNING, toBeStarted := some 1 },
           { Task.new none with toStart := 2 }) := by rfl

/-- C4 amended: the assertions in starts and ends check the state of the
edge target other (the depending task), not of the caller: starts fails
its assertion exactly when other is not NEW, ends exactly when other is
neither NEW nor RUNNING, whatever the state of self. -/
theorem edge_assertions_check_target (self other : Task) (oid : Nat) :
    (self.starts (some oid) other = .error () ↔
      other.state ≠ TaskState.NEW) ∧
    (self.ends (some oid) other = .error () ↔
      ¬ (other.state = TaskState.NEW ∨
          other.state = TaskState.RUNNING)) := by
  constructor
  · by_cases hnew : other.state = TaskState.NEW
    · by_cases hset : self.toBeStarted.isSome <;>
        simp [Task.starts, hnew, hset]
    · simp [Task.starts, hnew]
  · by_cases hst : other.state = TaskState.NEW ∨
        other.state = TaskState.RUNNING
    · by_cases hset : self.toBeEnded.isSome <;>
        simp [Task.ends, hst, hset]
    · simp [Task.ends, hst]

/-- Witness for the amended C4 at concrete inputs: with a NEW caller and a
DONE target, both starts and ends fail their assertion. -/
theorem edge_assertions_check_target_witness :
    (Task.new none).starts (some 1)
        { Task.new none with state := TaskState.DONE } = .error () ∧
    (Task.new none).ends (some 1)
        { Task.new none with state := TaskState.DONE } = .error () := by
  constructor
  · exact (edge_assertions_check_target (Task.new none)
      { Task.new none with state := TaskState.DONE } 1).1.mpr (by decide)
  · exact (edge_assertions_check_target (Task.new none)
      { Task.new none with state := TaskState.DONE } 1).2.mpr (by decide)

/-- C5: for every optional name, a freshly constructed Task is NEW with
toStart = 1 and toEnd = 1, priority NORMAL = 2, affinity ANY = 0xffff, and
one extra reference taken on behalf of the scheduler. -/
theorem new_task_defaults (taskName : Option String) :
    (Task.new taskName).state = TaskState.NEW ∧
    (Task.new taskName).toStart = 1 ∧
    (Task.new taskName).toEnd = 1 ∧
    (Task.new taskName).priority = TaskPriority.NORMAL ∧
    TaskPriority.NORMAL = 2 ∧
    (Task.new taskName).affinity = affinityANY ∧
    affinityANY = 0xffff ∧
    (Task.new taskName).refCount = RefCount.init + 1 := by
  exact ⟨rfl, rfl, rfl, rfl, rfl, rfl, rfl, rfl⟩

/-- C6: setPriority and setAffinity assert state NEW: on a task whose state
is not NEW both fail the assertion, and on a NEW task both succeed and set
the requested field. -/
theorem setters_require_new (self : Task) (p a : Nat) :
    (self.state ≠ TaskState.NEW →
      self.setPriority p = .error () ∧ self.setAffinity a = .error ()) ∧
    (self.state = TaskState.NEW →
      self.setPriority p = .ok { self with priority := p } ∧
      self.setAffinity a = .ok { self with affinity := a }) := by
  constructor
  · intro hne
    simp [Task.setPriority, Task.setAffinity, hne]
  · intro hnew
    simp [Task.setPriority, Task.setAffinity, hnew]

/-- Witness for C6 at concrete inputs: a DONE task rejects both setters and
a fresh task accepts both. -/
theorem setters_require_new_witness :
    (({ Task.new none with state := TaskState.DONE } : Task).setPriority 0 =
        .error () ∧
      ({ Task.new none with state := TaskState.DONE } : Task).setAffinity 4 =
        .error ()) ∧
    ((Task.new none).setPriority 0 =
        .ok { Task.new none with priority := 0 } ∧
      (Task.new none).setAffinity 4 =
        .ok { Task.new none with affinity := 4 }) := by
  constructor
  · exact (setters_require_new
      { Task.new none with state := TaskState.DONE } 0 4).1 (by decide)
  · exact (setters_require_new (Task.new none) 0 4).2 (by rfl)

/-- C7: the priority band encoding is CRITICAL = 0, HIGH = 1, NORMAL = 2,
LOW = 3, four bands in all, and the affinity value 0xffff (the
constructor default) denotes any worker. -/
theorem priority_and_affinity_encoding :
    TaskPriority.CRITICAL = 0 ∧ TaskPriority.HIGH = 1 ∧
    TaskPriority.NORMAL = 2 ∧ TaskPriority.LOW = 3 ∧
    TaskPriority.NUM = 4 ∧ affinityANY = 0xffff ∧
    (Task.new none).affinity = affinityANY := by
  exact ⟨rfl, rfl, rfl, rfl, rfl, rfl, rfl⟩

/-- C8: a TaskSet constructed with element count n carries the remaining
elements counter elemNum initialized to n, and its Task base subobject is
initialized exactly as an ordinary Task with the same name. -/
theorem taskset_ctor (n : Nat) (taskName : Option String) :
    (TaskSet.new n taskName).elemNum = n ∧
    (TaskSet.new n taskName).toTask = Task.new taskName := by
  exact ⟨rfl, rfl⟩

/-- C9: for every pair of tasks in any states, starts(NULL) and ends(NULL)
return immediately with no assertion failure and no field changed. -/
theorem null_edge_is_noop (self other : Task) :
    self.starts none other = .ok (self, other) ∧
    self.ends none other = .ok (self, other) := by
  exact ⟨rfl, rfl⟩

/-- C10: on a NEW task and any 16-bit values, getPriority right after
setPriority returns the value set, getAffinity right after setAffinity
returns the value set, and each setter changes only its own field. -/
theorem setter_getter_roundtrip (self : Task) (v w : Nat)
    (hnew : self.state = TaskState.NEW) (hv : v < 65536) (hw : w < 65536) :
    self.setPriority v = .ok { self with priority := v } ∧
    Task.getPriority { self with priority := v } = v ∧
    self.setAffinity w = .ok { self with affinity := w } ∧
    Task.getAffinity { self with affinity := w } = w := by
  refine ⟨?_, rfl, ?_, rfl⟩
  · simp [Task.setPriority, hnew]
  · simp [Task.setAffinity, hnew]

/-- Witness for C10 at a concrete input. -/
theorem setter_getter_roundtrip_witness :
    (Task.new none).setPriority 3 =
        .ok { Task.new none with priority := 3 } ∧
    Task.getPriority { Task.new none with priority := 3 } = 3 ∧
    (Task.new none).setAffinity 5 =
        .ok { Task.new none with affinity := 5 } ∧
    Task.getAffinity { Task.new none with affinity := 5 } = 5 :=
  setter_getter_roundtrip (Task.new none) 3 5 (by rfl) (by decide) (by decide)

end pf
